import Mathlib

/-!
Verification of the artifact streaming and persistence engine of the
ai-vercel-chat-sdk repository, as a shallow embedding in Lean 4.

The embedding follows the TypeScript source:
  * lib/ai/tools/create-document.ts        (createDocument tool)
  * the updateDocument tool                (unnamed source, same shape)
  * components/artifact-sidebar.tsx        (artifact state, autosave scheduler)
  * the chat POST route                    (resumable stream context fallback)

Effectful TypeScript is modelled by explicit state passing: each handler
returns the new state together with the list of externally visible effects
(protocol events written to the data stream, handler invocations, HTTP
POST persistence writes).  A thrown exception is an Except.error value.
-/

namespace ChatSDK

/-- Protocol events written to the UI message data stream.  The event
names mirror the wire types data-kind, data-id, data-title, data-content
and data-updated. -/
inductive StreamEvent where
  | dataKind (value : String)
  | dataId (value : String)
  | dataTitle (value : String)
  | dataContent (value : String)
  | dataUpdated
  deriving DecidableEq, Repr

/-- A stored document row.  The sidebar code reads content and title
defensively with a null coalescing fallback, so both are optional here;
createdAt is an abstract timestamp. -/
structure Document where
  id : String
  createdAt : Nat
  title : Option String
  content : Option String
  kind : String
  userId : String
  deriving DecidableEq, Repr

/-- A registered document handler, identified by the artifact kind it
serves (an entry of documentHandlersByArtifactKind). -/
structure DocumentHandler where
  kind : String
  deriving DecidableEq, Repr

/-- Handler lookup used by both tools:
documentHandlersByArtifactKind.find with a kind equality predicate. -/
def findHandler (handlers : List DocumentHandler) (kind : String) :
    Option DocumentHandler :=
  handlers.find? (fun h => h.kind == kind)

/-- One externally visible effect of a tool execution, in order of
occurrence: a data-stream write (all tool writes set transient true), the
invocation of a kind handler's onCreateDocument hook, or the invocation of
a kind handler's onUpdateDocument hook. -/
inductive Effect where
  | write (event : StreamEvent) (transient : Bool)
  | invokeCreate (id title content kind : String)
  | invokeUpdate (document : Document) (content : String)
  deriving DecidableEq, Repr

/-- The structured object a tool returns to the generation process on
success (id, title, kind, status message).  The update tool computes the
title as a JavaScript or-else of the optional input title and the stored
title, so the field is optional. -/
structure ToolDocumentResult where
  id : String
  title : Option String
  kind : String
  content : String
  deriving DecidableEq, Repr

/-- Return value of the updateDocument tool execute function: either the
structured not-found object or the success object. -/
inductive UpdateReturn where
  | errorResult (error : String)
  | success (result : ToolDocumentResult)
  deriving DecidableEq, Repr

/-- JavaScript truthiness of an optional string: undefined and the empty
string are falsy. -/
def strTruthy : Option String → Bool
  | some s => s ≠ ""
  | none => false

/-- JavaScript a or-else b for an optional string a and optional fallback
b, as in the expression title or document.title. -/
def strOrElse (a : Option String) (b : Option String) : Option String :=
  match a with
  | some s => if s = "" then b else some s
  | none => b

/-- Execution of the createDocument tool (create-document.ts).  The
generated UUID is a parameter; handlers is the registry the source
searches.  Returns the ordered effect trace and the result, where
Except.error models a thrown exception. -/
def createDocumentExecute (generatedId : String)
    (handlers : List DocumentHandler) (title kind content : String) :
    List Effect × Except String ToolDocumentResult :=
  let events := [Effect.write (StreamEvent.dataKind kind) true,
                 Effect.write (StreamEvent.dataId generatedId) true,
                 Effect.write (StreamEvent.dataTitle title) true,
                 Effect.write (StreamEvent.dataContent content) true]
  match findHandler handlers kind with
  | none =>
      (events, Except.error ("No document handler found for kind: " ++ kind))
  | some _ =>
      (events ++ [Effect.invokeCreate generatedId title content kind],
       Except.ok { id := generatedId, title := some title, kind := kind,
                   content := "Document created successfully." })

/-- Execution of the updateDocument tool.  The getDocumentById query is a
parameter lookup; the control flow mirrors the source: missing document
returns the structured not-found object before any event is written,
the optional title event and the content event are written next, a missing
handler for the stored kind throws, otherwise the update hook runs and the
data-updated notification is written. -/
def updateDocumentExecute (lookup : String → Option Document)
    (handlers : List DocumentHandler) (id content : String)
    (title : Option String) :
    List Effect × Except String UpdateReturn :=
  match lookup id with
  | none => ([], Except.ok (UpdateReturn.errorResult "Document not found"))
  | some document =>
      let titleEvents :=
        if strTruthy title then
          [Effect.write (StreamEvent.dataTitle (title.getD "")) true]
        else []
      let preEvents :=
        titleEvents ++ [Effect.write (StreamEvent.dataContent content) true]
      match findHandler handlers document.kind with
      | none =>
          (preEvents,
           Except.error ("No document handler found for kind: " ++ document.kind))
      | some _ =>
          let newTitle := strOrElse title document.title
          let updatedDocument :=
            { document with content := some content, title := newTitle }
          (preEvents ++ [Effect.invokeUpdate updatedDocument content,
                         Effect.write StreamEvent.dataUpdated true],
           Except.ok (UpdateReturn.success
             { id := id, title := newTitle, kind := document.kind,
               content := "Document updated successfully." }))

/-- Lifecycle status of the visible artifact
(components/artifact-sidebar.tsx together with the use-artifact hook). -/
inductive ArtifactStatus where
  | init
  | streaming
  | idle
  | updated
  deriving DecidableEq, Repr

/-- The consumer-side artifact state mutated by setArtifact in the
sidebar.  documentId is a plain string in the source; the empty string
models the JavaScript falsy case checked by the save path. -/
structure UIArtifact where
  documentId : String
  kind : String
  title : String
  content : String
  status : ArtifactStatus
  isVisible : Bool
  deriving DecidableEq, Repr

/-- Debounce delay of the autosave scheduler, milliseconds
(the window.setTimeout delay in scheduleSave). -/
def SAVE_DEBOUNCE_MS : Nat := 1500

/-- Display window after which the updated status auto-reverts to idle,
milliseconds (the setTimeout delay in the updated-status effect). -/
def UPDATED_REVERT_DELAY_MS : Nat := 3000

/-- Body of the POST persistence request the sidebar issues against the
document endpoint (fetch with method POST in handleContentChange). -/
structure PostDocumentRequest where
  id : String
  title : String
  content : String
  kind : String
  deriving DecidableEq, Repr

/-- State of the ArtifactSidebar component: the artifact, the SWR cache
of document rows for the open document (the undefined and the empty cache
behave identically in the source, both are the empty list here), the
isContentDirty flag, and the pending debounce timer with the arguments the
scheduled handleContentChange call will receive. -/
structure SidebarState where
  artifact : UIArtifact
  documentsCache : List Document
  isContentDirty : Bool
  saveTimer : Option (String × Option String)
  deriving DecidableEq, Repr

/-- The handleContentChange save path of the sidebar.  Returns the new
component state and the list of issued persistence writes.  Mirrors the
source: an artifact without a documentId returns at once; an absent or
empty cached version list returns the cache unchanged; if neither content
nor title differs from the latest cached row the dirty flag is cleared and
nothing is written; otherwise one POST is issued and the optimistic new
row is appended to the cache with the current time as createdAt. -/
def handleContentChange (s : SidebarState) (updatedContent : String)
    (updatedTitle : Option String) (now : Nat) :
    SidebarState × List PostDocumentRequest :=
  if s.artifact.documentId = "" then (s, [])
  else
    let s1 := { s with isContentDirty := true }
    match s1.documentsCache.getLast? with
    | none => (s1, [])
    | some currentDocument =>
        let incomingTitle := updatedTitle.getD s1.artifact.title
        let contentChanged := currentDocument.content.getD "" ≠ updatedContent
        let titleChanged := currentDocument.title.getD "" ≠ incomingTitle
        if ¬contentChanged ∧ ¬titleChanged then
          ({ s1 with isContentDirty := false }, [])
        else
          let newDocument :=
            { currentDocument with title := some incomingTitle,
                                   content := some updatedContent,
                                   createdAt := now }
          ({ s1 with
               isContentDirty := false,
               documentsCache := s1.documentsCache ++ [newDocument] },
           [{ id := s1.artifact.documentId, title := incomingTitle,
              content := updatedContent, kind := s1.artifact.kind }])

/-- The scheduleSave debounce scheduler: any previously pending timer is
cleared and replaced, the dirty flag is set, and the given arguments are
the ones the timer will pass to handleContentChange when it fires. -/
def scheduleSave (s : SidebarState) (content : String)
    (title : Option String) : SidebarState :=
  { s with isContentDirty := true, saveTimer := some (content, title) }

/-- Expiry of the debounce timer: the pending handleContentChange call
runs with the scheduled arguments; with no pending timer nothing
happens. -/
def fireSaveTimer (s : SidebarState) (now : Nat) :
    SidebarState × List PostDocumentRequest :=
  match s.saveTimer with
  | none => (s, [])
  | some (content, title) =>
      handleContentChange { s with saveTimer := none } content title now

/-- The handleTitleChange edit handler: while the artifact is streaming
the edit is dropped; otherwise the in-memory title is updated and a
debounced save of the current content with the new title is scheduled. -/
def handleTitleChange (s : SidebarState) (newTitle : String) :
    SidebarState :=
  if s.artifact.status = ArtifactStatus.streaming then s
  else
    let s1 := { s with artifact := { s.artifact with title := newTitle } }
    scheduleSave s1 s.artifact.content (some newTitle)

/-- The onSaveContent callback the sidebar passes to the editor: the
in-memory content is updated unconditionally, then either a debounced save
is scheduled or handleContentChange runs at once. -/
def onSaveContent (s : SidebarState) (content : String) (debounce : Bool)
    (now : Nat) : SidebarState × List PostDocumentRequest :=
  let s1 := { s with artifact := { s.artifact with content := content } }
  if debounce then (scheduleSave s1 content none, [])
  else handleContentChange s1 content none now

/-- The handleClose handler: a pending debounce timer is cleared and the
pending change flushed through handleContentChange with the artifact's
current content and title, then the sidebar is hidden. -/
def handleClose (s : SidebarState) (now : Nat) :
    SidebarState × List PostDocumentRequest :=
  let flushed :=
    match s.saveTimer with
    | some _ =>
        handleContentChange { s with saveTimer := none }
          s.artifact.content (some s.artifact.title) now
    | none => (s, [])
  ({ flushed.1 with
       artifact := { flushed.1.artifact with isVisible := false } },
   flushed.2)

/-- The unmount cleanup effect of the sidebar: a pending debounce timer
is cleared; no flush is performed. -/
def unmountCleanup (s : SidebarState) :
    SidebarState × List PostDocumentRequest :=
  ({ s with saveTimer := none }, [])

/-- Expiry of the updated-status display timer: when the status is
updated it reverts to idle, every other field untouched; the effect is
only armed in the updated status. -/
def revertUpdatedStatus (s : SidebarState) : SidebarState :=
  if s.artifact.status = ArtifactStatus.updated then
    { s with artifact := { s.artifact with status := ArtifactStatus.idle } }
  else s

/-- Opaque handle for a created resumable stream context (the value the
external createResumableStreamContext call yields on success). -/
structure StreamContext where
  handle : Nat
  deriving DecidableEq, Repr

/-- One console log entry emitted by getStreamContext: info corresponds
to console.log, error to console.error. -/
inductive LogEntry where
  | info (message : String)
  | error (message : String)
  deriving DecidableEq, Repr

/-- Character-list test for one list starting with another, the base of
the substring check below. -/
def leadsWith : List Char → List Char → Bool
  | [], _ => true
  | _ :: _, [] => false
  | p :: ps, c :: cs => p == c && leadsWith ps cs

/-- Character-list test for containing a given contiguous pattern. -/
def containsSeq (pat : List Char) : List Char → Bool
  | [] => leadsWith pat []
  | c :: cs => leadsWith pat (c :: cs) || containsSeq pat cs

/-- The substring test error.message.includes applied to the REDIS_URL
marker. -/
def mentionsRedisUrl (message : String) : Bool :=
  containsSeq "REDIS_URL".toList message.toList

/-- The getStreamContext function of the chat POST route.  The memoized
global context and the outcome of the external createResumableStreamContext
call are parameters; a creation failure whose message mentions REDIS_URL is
logged as the disabled-resumability notice, any other failure is logged via
console.error, and in both failure cases the function returns no context
instead of raising. -/
def getStreamContext (globalCtx : Option StreamContext)
    (create : Except String StreamContext) :
    Option StreamContext × List LogEntry :=
  match globalCtx with
  | some ctx => (some ctx, [])
  | none =>
      match create with
      | Except.ok ctx => (some ctx, [])
      | Except.error message =>
          if mentionsRedisUrl message then
            (none,
             [LogEntry.info
               " > Resumable streams are disabled due to missing REDIS_URL"])
          else (none, [LogEntry.error message])

/-- The response the chat POST route returns for the generation stream:
with a stream context the stream is wrapped resumably under its stream id,
without one the same stream is returned directly. -/
inductive ChatResponse (σ : Type) where
  | resumable (streamId : String) (stream : σ)
  | direct (stream : σ)
  deriving DecidableEq, Repr

/-- Tail of the chat POST route: the branch on the stream context that
either wraps the event stream in a resumable stream or passes it through
directly. -/
def respondWithStream {σ : Type} (ctx : Option StreamContext)
    (streamId : String) (stream : σ) : ChatResponse σ :=
  match ctx with
  | some _ => ChatResponse.resumable streamId stream
  | none => ChatResponse.direct stream

/-- C1: an updateDocument call whose id resolves to no stored document
returns the structured object with error message Document not found as an
ordinary value (Except.ok, not a thrown Except.error), with an empty
effect trace: no protocol event is written and no kind handler is
invoked. -/
theorem update_missing_document_returns_structured_error
    (lookup : String → Option Document) (handlers : List DocumentHandler)
    (id content : String) (title : Option String)
    (h : lookup id = none) :
    updateDocumentExecute lookup handlers id content title =
      ([], Except.ok (UpdateReturn.errorResult "Document not found")) := by
  unfold updateDocumentExecute
  rw [h]

/-- Witness for C1 at the concrete input of the spec scenario: the lookup
finds nothing for the id missing-id and the tool returns the structured
not-found result with no effects. -/
theorem update_missing_document_returns_structured_error_witness :
    (fun _ : String => (none : Option Document)) "missing-id" =
      (none : Option Document) ∧
    updateDocumentExecute (fun _ => none) [] "missing-id" "x" none =
      ([], Except.ok (UpdateReturn.errorResult "Document not found")) :=
  ⟨rfl,
   update_missing_document_returns_structured_error
     (fun _ => none) [] "missing-id" "x" none rfl⟩

/-- C5: a successful createDocument execution produces exactly the effect
trace data-kind, data-id, data-title, data-content, in that order,
followed by the invocation of the kind handler's creation hook, so all
four protocol events precede the hook; the returned structured result
carries the status message rather than the full content. -/
theorem create_document_emits_four_events_in_order_before_handler
    (generatedId : String) (handlers : List DocumentHandler)
    (title kind content : String) (dh : DocumentHandler)
    (h : findHandler handlers kind = some dh) :
    createDocumentExecute generatedId handlers title kind content =
      ([Effect.write (StreamEvent.dataKind kind) true,
        Effect.write (StreamEvent.dataId generatedId) true,
        Effect.write (StreamEvent.dataTitle title) true,
        Effect.write (StreamEvent.dataContent content) true,
        Effect.invokeCreate generatedId title content kind],
       Except.ok { id := generatedId, title := some title, kind := kind,
                   content := "Document created successfully." }) := by
  unfold createDocumentExecute
  rw [h]
  rfl

/-- Witness for C5 at a concrete registry holding a text handler. -/
theorem create_document_emits_four_events_in_order_before_handler_witness :
    findHandler [{ kind := "text" }] "text" =
      some { kind := "text" } ∧
    createDocumentExecute "id-1" [{ kind := "text" }] "T" "text" "Hello" =
      ([Effect.write (StreamEvent.dataKind "text") true,
        Effect.write (StreamEvent.dataId "id-1") true,
        Effect.write (StreamEvent.dataTitle "T") true,
        Effect.write (StreamEvent.dataContent "Hello") true,
        Effect.invokeCreate "id-1" "T" "Hello" "text"],
       Except.ok { id := "id-1", title := some "T", kind := "text",
                   content := "Document created successfully." }) :=
  ⟨by decide,
   create_document_emits_four_events_in_order_before_handler
     "id-1" [{ kind := "text" }] "T" "text" "Hello"
     { kind := "text" } (by decide)⟩

/-- C6: with no handler registered for the requested kind, respectively
for the stored document's kind, both tools raise (the execute result is a
thrown Except.error naming the kind) rather than returning a structured
value or continuing. -/
theorem missing_kind_handler_raises
    (generatedId : String) (handlers : List DocumentHandler)
    (title kind content : String)
    (lookup : String → Option Document) (id ucontent : String)
    (utitle : Option String) (document : Document)
    (hck : findHandler handlers kind = none)
    (hl : lookup id = some document)
    (huk : findHandler handlers document.kind = none) :
    (createDocumentExecute generatedId handlers title kind content).2 =
      Except.error ("No document handler found for kind: " ++ kind) ∧
    (updateDocumentExecute lookup handlers id ucontent utitle).2 =
      Except.error ("No document handler found for kind: " ++ document.kind) := by
  constructor
  · simp [createDocumentExecute, hck]
  · simp [updateDocumentExecute, hl, huk]

/-- Witness for C6: an empty handler registry, a stored sheet document,
and both tools raising the configuration error for that kind. -/
theorem missing_kind_handler_raises_witness :
    findHandler [] "sheet" = none ∧
    (fun i => if i = "doc-9" then
        some ({ id := "doc-9", createdAt := 0, title := some "S",
                content := some "c0", kind := "sheet",
                userId := "u1" } : Document)
      else none) "doc-9" =
      some { id := "doc-9", createdAt := 0, title := some "S",
             content := some "c0", kind := "sheet", userId := "u1" } ∧
    (createDocumentExecute "id-2" [] "T" "sheet" "x").2 =
      Except.error ("No document handler found for kind: " ++ "sheet") ∧
    (updateDocumentExecute
        (fun i => if i = "doc-9" then
          some { id := "doc-9", createdAt := 0, title := some "S",
                 content := some "c0", kind := "sheet", userId := "u1" }
        else none) [] "doc-9" "y" none).2 =
      Except.error ("No document handler found for kind: " ++ "sheet") := by
  refine ⟨by decide, by decide, ?_⟩
  exact missing_kind_handler_raises "id-2" [] "T" "sheet" "x"
    (fun i => if i = "doc-9" then
      some { id := "doc-9", createdAt := 0, title := some "S",
             content := some "c0", kind := "sheet", userId := "u1" }
    else none) "doc-9" "y" none
    { id := "doc-9", createdAt := 0, title := some "S",
      content := some "c0", kind := "sheet", userId := "u1" }
    (by decide) (by decide) (by decide)

/-- C7: when the memoized context is absent and the external creation of
the resumable stream context fails with a message mentioning REDIS_URL,
getStreamContext logs the disabled-resumability notice and yields no
context instead of raising, and the POST tail then returns the event
stream to the client as a direct, non-resumable response. -/
theorem missing_redis_degrades_to_passthrough {σ : Type}
    (message streamId : String) (stream : σ)
    (h : mentionsRedisUrl message = true) :
    getStreamContext none (Except.error message) =
      (none,
       [LogEntry.info
         " > Resumable streams are disabled due to missing REDIS_URL"]) ∧
    respondWithStream (getStreamContext none (Except.error message)).1
        streamId stream =
      ChatResponse.direct stream := by
  constructor
  · simp [getStreamContext, h]
  · simp [getStreamContext, h, respondWithStream]

/-- Witness for C7 at a concrete creation failure naming REDIS_URL. -/
theorem missing_redis_degrades_to_passthrough_witness :
    mentionsRedisUrl "Missing REDIS_URL environment variable" = true ∧
    getStreamContext none
        (Except.error "Missing REDIS_URL environment variable") =
      (none,
       [LogEntry.info
         " > Resumable streams are disabled due to missing REDIS_URL"]) ∧
    respondWithStream
        (getStreamContext none
          (Except.error "Missing REDIS_URL environment variable")).1
        "stream-1" ["data: frame"] =
      ChatResponse.direct ["data: frame"] := by
  refine ⟨by decide, ?_⟩
  exact missing_redis_degrades_to_passthrough
    "Missing REDIS_URL environment variable" "stream-1" ["data: frame"]
    (by decide)

/-- Sample stored row used by the concrete witnesses below. -/
def sampleDoc : Document :=
  { id := "doc-1", createdAt := 0, title := some "T",
    content := some "old", kind := "text", userId := "u1" }

/-- Sidebar state with an idle artifact and a pending debounced save
whose content differs from the latest cached row. -/
def pendingState : SidebarState :=
  { artifact := { documentId := "doc-1", kind := "text", title := "T",
                  content := "new", status := ArtifactStatus.idle,
                  isVisible := true },
    documentsCache := [sampleDoc], isContentDirty := true,
    saveTimer := some ("new", none) }

/-- Sidebar state with a streaming artifact and no pending save. -/
def streamingState : SidebarState :=
  { artifact := { documentId := "doc-1", kind := "text", title := "T",
                  content := "a", status := ArtifactStatus.streaming,
                  isVisible := true },
    documentsCache := [sampleDoc], isContentDirty := false,
    saveTimer := none }

/-- Sidebar state whose artifact has just entered the updated status. -/
def updatedState : SidebarState :=
  { artifact := { documentId := "doc-1", kind := "text", title := "T",
                  content := "new", status := ArtifactStatus.updated,
                  isVisible := true },
    documentsCache := [sampleDoc], isContentDirty := false,
    saveTimer := none }

/-- Dissection of the save path: a missing documentId or an absent or
empty cached version list produces no write and leaves cache and artifact
untouched. -/
theorem handleContentChange_no_target (s : SidebarState) (c : String)
    (t : Option String) (now : Nat)
    (h : s.artifact.documentId = "" ∨ s.documentsCache = []) :
    (handleContentChange s c t now).2 = [] ∧
    (handleContentChange s c t now).1.documentsCache = s.documentsCache ∧
    (handleContentChange s c t now).1.artifact = s.artifact := by
  rcases h with h | h
  · simp [handleContentChange, h]
  · by_cases hid : s.artifact.documentId = ""
    · simp [handleContentChange, hid]
    · simp [handleContentChange, hid, h]

/-- C10: with no documentId on the artifact, or with an absent or empty
cached version list, the save path issues no persistence write, raises
nothing, and drops the pending edit: handleContentChange, the
debounce-fired save and the close-time flush all return with an empty
write list, the cache and the artifact unchanged. -/
theorem save_without_target_discards_silently (s : SidebarState)
    (c : String) (t : Option String) (now : Nat)
    (h : s.artifact.documentId = "" ∨ s.documentsCache = []) :
    (handleContentChange s c t now).2 = [] ∧
    (handleContentChange s c t now).1.documentsCache = s.documentsCache ∧
    (handleContentChange s c t now).1.artifact = s.artifact ∧
    (fireSaveTimer s now).2 = [] ∧
    (handleClose s now).2 = [] := by
  obtain ⟨h1, h2, h3⟩ := handleContentChange_no_target s c t now h
  refine ⟨h1, h2, h3, ?_, ?_⟩
  · cases hst : s.saveTimer with
    | none => simp [fireSaveTimer, hst]
    | some ct =>
        obtain ⟨c', t'⟩ := ct
        have := handleContentChange_no_target
          { s with saveTimer := none } c' t' now (by simpa using h)
        simp [fireSaveTimer, hst, this.1]
  · cases hst : s.saveTimer with
    | none => simp [handleClose, hst]
    | some ct =>
        have := handleContentChange_no_target
          { s with saveTimer := none } s.artifact.content
          (some s.artifact.title) now (by simpa using h)
        simp [handleClose, hst, this.1]

/-- Witness for C10 at a state whose cached version list is empty. -/
theorem save_without_target_discards_silently_witness :
    ({ streamingState with documentsCache := [] } :
        SidebarState).artifact.documentId = "" ∨
      ({ streamingState with documentsCache := [] } :
        SidebarState).documentsCache = [] ∧
    (handleContentChange { streamingState with documentsCache := [] }
        "x" none 3).2 = [] := by
  refine Or.inr ⟨rfl, ?_⟩
  exact (save_without_target_discards_silently
    { streamingState with documentsCache := [] } "x" none 3
    (Or.inr rfl)).1

/-- C9 as stated: with the artifact in the updated status, the expiry of
the fixed three second display timer reverts the status to idle and
changes no other artifact field: documentId, kind, title, content and
isVisible are all preserved, as are the cache, the dirty flag and any
pending save timer. -/
theorem updated_status_auto_reverts (s : SidebarState)
    (h : s.artifact.status = ArtifactStatus.updated) :
    (revertUpdatedStatus s).artifact.status = ArtifactStatus.idle ∧
    (revertUpdatedStatus s).artifact.documentId = s.artifact.documentId ∧
    (revertUpdatedStatus s).artifact.kind = s.artifact.kind ∧
    (revertUpdatedStatus s).artifact.title = s.artifact.title ∧
    (revertUpdatedStatus s).artifact.content = s.artifact.content ∧
    (revertUpdatedStatus s).artifact.isVisible = s.artifact.isVisible ∧
    (revertUpdatedStatus s).documentsCache = s.documentsCache ∧
    (revertUpdatedStatus s).saveTimer = s.saveTimer ∧
    UPDATED_REVERT_DELAY_MS = 3000 := by
  simp [revertUpdatedStatus, h, UPDATED_REVERT_DELAY_MS]

/-- Witness for C9 at the concrete updated state. -/
theorem updated_status_auto_reverts_witness :
    updatedState.artifact.status = ArtifactStatus.updated ∧
    (revertUpdatedStatus updatedState).artifact.status =
      ArtifactStatus.idle ∧
    (revertUpdatedStatus updatedState).artifact.content =
      updatedState.artifact.content :=
  ⟨rfl, (updated_status_auto_reverts updatedState rfl).1,
   (updated_status_auto_reverts updatedState rfl).2.2.2.2.1⟩

/-- Counterexample to C8 as stated: in a concrete streaming artifact
state, a human content edit through the editor's save callback is neither
rejected nor ignored: the in-memory artifact content changes to the edited
text and an autosave for it is scheduled. -/
theorem streaming_content_edit_accepted :
    streamingState.artifact.status = ArtifactStatus.streaming ∧
    (onSaveContent streamingState "ab" true 0).1.artifact.content = "ab" ∧
    (onSaveContent streamingState "ab" true 0).1.artifact ≠
      streamingState.artifact ∧
    (onSaveContent streamingState "ab" true 0).1.saveTimer =
      some ("ab", none) := by
  refine ⟨rfl, rfl, ?_, rfl⟩
  decide

/-- C8 amended: while the artifact is streaming, a human title edit is
ignored (handleTitleChange returns the state unchanged, so no autosave is
scheduled for it), whereas a human content edit through the editor's save
callback is not guarded: it updates the in-memory content and schedules an
autosave regardless of the status. -/
theorem streaming_edit_arbitration (s : SidebarState)
    (newTitle c : String)
    (h : s.artifact.status = ArtifactStatus.streaming) :
    handleTitleChange s newTitle = s ∧
    (onSaveContent s c true 0).1.artifact.content = c ∧
    (onSaveContent s c true 0).1.saveTimer = some (c, none) := by
  refine ⟨by simp [handleTitleChange, h], ?_, ?_⟩ <;>
    simp [onSaveContent, scheduleSave]

/-- Witness for the amended C8 at the concrete streaming state. -/
theorem streaming_edit_arbitration_witness :
    streamingState.artifact.status = ArtifactStatus.streaming ∧
    handleTitleChange streamingState "X" = streamingState ∧
    (onSaveContent streamingState "ab" true 0).1.saveTimer =
      some ("ab", none) :=
  ⟨rfl, (streaming_edit_arbitration streamingState "X" "ab" rfl).1,
   (streaming_edit_arbitration streamingState "X" "ab" rfl).2.2⟩

/-- Counterexample to C4 as stated: at a concrete state with a pending
debounced save that would write if flushed, the unmount cleanup effect of
the sidebar, the navigation-away path, cancels the timer and issues no
write: the most recent edit is lost. -/
theorem unmount_drops_pending_save :
    pendingState.saveTimer = some ("new", none) ∧
    (fireSaveTimer pendingState 5).2 =
      [{ id := "doc-1", title := "T", content := "new",
         kind := "text" }] ∧
    (unmountCleanup pendingState).2 = [] ∧
    (unmountCleanup pendingState).1.saveTimer = none := by
  refine ⟨rfl, ?_, rfl, rfl⟩
  decide

/-- C4 amended: on explicit close, a pending debounced save is cancelled
and then immediately performed through handleContentChange with the
artifact's current content and title before the sidebar is hidden; on
unmount (navigation-away) the pending timer is only cancelled, no flush is
performed, and the pending edit is discarded. -/
theorem close_flushes_unmount_only_cancels (s : SidebarState) (now : Nat)
    (h : s.saveTimer.isSome = true) :
    handleClose s now =
      (let r := handleContentChange { s with saveTimer := none }
                  s.artifact.content (some s.artifact.title) now
       ({ r.1 with
            artifact := { r.1.artifact with isVisible := false } },
        r.2)) ∧
    (unmountCleanup s).2 = [] ∧
    (unmountCleanup s).1 = { s with saveTimer := none } := by
  obtain ⟨ct, hct⟩ := Option.isSome_iff_exists.mp h
  exact ⟨by simp [handleClose, hct], rfl, rfl⟩

/-- Witness for the amended C4 at the concrete pending state. -/
theorem close_flushes_unmount_only_cancels_witness :
    pendingState.saveTimer.isSome = true ∧
    (handleClose pendingState 7 =
      (let r := handleContentChange { pendingState with saveTimer := none }
                  pendingState.artifact.content
                  (some pendingState.artifact.title) 7
       ({ r.1 with
            artifact := { r.1.artifact with isVisible := false } },
        r.2)) ∧
    (unmountCleanup pendingState).2 = [] ∧
    (unmountCleanup pendingState).1 =
      { pendingState with saveTimer := none }) :=
  ⟨rfl, close_flushes_unmount_only_cancels pendingState 7 rfl⟩

/-- A single run of the save path issues at most one POST. -/
theorem handleContentChange_writes_le_one (s : SidebarState) (c : String)
    (t : Option String) (now : Nat) :
    (handleContentChange s c t now).2.length ≤ 1 := by
  unfold handleContentChange
  split
  · simp
  · dsimp only
    split
    · simp
    · split <;> simp

/-- A burst of schedule calls applied in sequence, each within the
debounce window of the previous one, so that no intermediate timer ever
fires. -/
def scheduleMany (s : SidebarState)
    (calls : List (String × Option String)) : SidebarState :=
  calls.foldl (fun st ct => scheduleSave st ct.1 ct.2) s

/-- After a burst of schedule calls the pending timer holds exactly the
arguments of the last call. -/
theorem scheduleMany_saveTimer (s : SidebarState)
    (calls : List (String × Option String))
    (last : String × Option String) (h : calls.getLast? = some last) :
    (scheduleMany s calls).saveTimer = some last := by
  induction calls generalizing s with
  | nil => cases h
  | cons a as ih =>
      cases as with
      | nil =>
          simp only [List.getLast?_singleton, Option.some.injEq] at h
          subst h
          rfl
      | cons b bs =>
          rw [List.getLast?_cons_cons] at h
          exact ih (scheduleSave s a.1 a.2) h

/-- C3: for a burst of schedule calls inside the debounce window, every
call replaces the previously pending timer, so when the timer finally
fires the persistence write path handleContentChange runs exactly once,
with precisely the arguments of the last call, and at most one POST
results for the whole burst. -/
theorem debounce_last_call_wins (s : SidebarState)
    (calls : List (String × Option String)) (c : String)
    (t : Option String) (now : Nat)
    (h : calls.getLast? = some (c, t)) :
    (scheduleMany s calls).saveTimer = some (c, t) ∧
    fireSaveTimer (scheduleMany s calls) now =
      handleContentChange
        { scheduleMany s calls with saveTimer := none } c t now ∧
    (fireSaveTimer (scheduleMany s calls) now).2.length ≤ 1 := by
  have hst := scheduleMany_saveTimer s calls (c, t) h
  refine ⟨hst, ?_, ?_⟩
  · simp [fireSaveTimer, hst]
  · simp only [fireSaveTimer, hst]
    exact handleContentChange_writes_le_one _ c t now

/-- Witness for C3: two schedule calls in one burst; the pending timer
holds the second call's arguments and firing writes its content once. -/
theorem debounce_last_call_wins_witness :
    ([("draft one", (none : Option String)),
      ("draft two", some "B")] :
        List (String × Option String)).getLast? =
      some ("draft two", some "B") ∧
    (scheduleMany pendingState
        [("draft one", none), ("draft two", some "B")]).saveTimer =
      some ("draft two", some "B") ∧
    (fireSaveTimer (scheduleMany pendingState
        [("draft one", none), ("draft two", some "B")]) 9).2 =
      [{ id := "doc-1", title := "B", content := "draft two",
         kind := "text" }] := by
  refine ⟨by decide, ?_, ?_⟩
  · exact (debounce_last_call_wins pendingState
      [("draft one", none), ("draft two", some "B")]
      "draft two" (some "B") 9 (by decide)).1
  · decide

/-- Auxiliary list fact: appending one row makes it the latest. -/
theorem getLast?_append_singleton {α : Type} (l : List α) (a : α) :
    (l ++ [a]).getLast? = some a := by
  rw [List.getLast?_append_of_ne_nil l (by simp)]
  rfl

/-- The optimistic row the save path appends to the cache on a write. -/
def optimisticRow (d : Document) (incomingTitle updatedContent : String)
    (now : Nat) : Document :=
  { d with title := some incomingTitle, content := some updatedContent,
           createdAt := now }

/-- Stability of a sidebar state for a scheduled save: the save path will
not write, because there is no target document, no cached version list, or
the latest cached row already carries the scheduled content and the title
the save would use. -/
def stableFor (s : SidebarState) (c : String) (t : Option String) : Prop :=
  s.artifact.documentId = "" ∨
  s.documentsCache.getLast? = none ∨
  ∃ d, s.documentsCache.getLast? = some d ∧
    d.content.getD "" = c ∧ d.title.getD "" = t.getD s.artifact.title

/-- Stability only looks at the artifact and the cache. -/
theorem stableFor_of_eq (s s' : SidebarState) (c : String)
    (t : Option String) (ha : s'.artifact = s.artifact)
    (hc : s'.documentsCache = s.documentsCache)
    (h : stableFor s c t) : stableFor s' c t := by
  rcases h with h | h | ⟨d, hd, h1, h2⟩
  · exact Or.inl (by rw [ha]; exact h)
  · exact Or.inr (Or.inl (by rw [hc]; exact h))
  · exact Or.inr (Or.inr ⟨d, by rw [hc]; exact hd, h1, by rw [ha]; exact h2⟩)

/-- Any run of the save path leaves the artifact untouched, issues at
most one POST, and leaves behind a state that is stable for the very
content and title it saved. -/
theorem handleContentChange_run (s : SidebarState) (c : String)
    (t : Option String) (now : Nat) :
    (handleContentChange s c t now).1.artifact = s.artifact ∧
    stableFor (handleContentChange s c t now).1 c t := by
  unfold handleContentChange
  split
  case isTrue hid => exact ⟨rfl, Or.inl hid⟩
  case isFalse hid =>
    dsimp only
    split
    case h_1 heq => exact ⟨rfl, Or.inr (Or.inl heq)⟩
    case h_2 d heq =>
      split
      case isTrue hch =>
        exact ⟨rfl, Or.inr (Or.inr
          ⟨d, heq, not_not.mp hch.1, not_not.mp hch.2⟩)⟩
      case isFalse hch =>
        exact ⟨rfl, Or.inr (Or.inr
          ⟨optimisticRow d (t.getD s.artifact.title) c now,
           getLast?_append_singleton _ _, rfl, rfl⟩)⟩

/-- When a state is stable for the scheduled arguments, the save path
writes nothing and leaves artifact, cache and timer unchanged. -/
theorem handleContentChange_stable (s : SidebarState) (c : String)
    (t : Option String) (now : Nat) (h : stableFor s c t) :
    (handleContentChange s c t now).2 = [] ∧
    (handleContentChange s c t now).1.artifact = s.artifact ∧
    (handleContentChange s c t now).1.documentsCache =
      s.documentsCache ∧
    (handleContentChange s c t now).1.saveTimer = s.saveTimer := by
  unfold handleContentChange
  rcases h with h | h | ⟨d, hd, h1, h2⟩
  · simp [h]
  · split
    · exact ⟨rfl, rfl, rfl, rfl⟩
    · dsimp only
      split
      case h_1 => exact ⟨rfl, rfl, rfl, rfl⟩
      case h_2 d heq => rw [heq] at h; cases h
  · split
    · exact ⟨rfl, rfl, rfl, rfl⟩
    · dsimp only
      split
      case h_1 heq => rw [heq] at hd; cases hd
      case h_2 d' heq =>
        rw [heq] at hd
        cases hd
        rw [if_pos ⟨not_not.mpr h1, not_not.mpr h2⟩]
        exact ⟨rfl, rfl, rfl, rfl⟩

/-- Repeated schedule-then-fire cycles with identical arguments: each
cycle schedules the same content and title and lets the debounce timer
expire, with strictly increasing timestamps across cycles. -/
def scheduleFireN : SidebarState → String → Option String → Nat → Nat →
    SidebarState × List PostDocumentRequest
  | s, _, _, _, 0 => (s, [])
  | s, c, t, now, Nat.succ n =>
      let step := fireSaveTimer (scheduleSave s c t) now
      let rest := scheduleFireN step.1 c t (now + 1) n
      (rest.1, step.2 ++ rest.2)

/-- Firing right after a schedule runs the save path on the state with
the timer cleared and the dirty flag set. -/
theorem fireSaveTimer_after_schedule (s : SidebarState) (c : String)
    (t : Option String) (now : Nat) :
    fireSaveTimer (scheduleSave s c t) now =
      handleContentChange
        { s with isContentDirty := true, saveTimer := none } c t now := rfl

/-- From a stable state, any number of identical schedule-then-fire
cycles writes nothing and stays stable. -/
theorem scheduleFireN_stable (n : Nat) (s : SidebarState) (c : String)
    (t : Option String) (now : Nat) (h : stableFor s c t) :
    (scheduleFireN s c t now n).2 = [] ∧
    stableFor (scheduleFireN s c t now n).1 c t := by
  induction n generalizing s now with
  | zero => exact ⟨rfl, h⟩
  | succ n ih =>
      have hs2 : stableFor
          { s with isContentDirty := true, saveTimer := none } c t :=
        stableFor_of_eq s _ c t rfl rfl h
      have hstep := handleContentChange_stable
        { s with isContentDirty := true, saveTimer := none } c t now hs2
      have hstab : stableFor (fireSaveTimer (scheduleSave s c t) now).1
          c t := by
        rw [fireSaveTimer_after_schedule]
        exact stableFor_of_eq _ _ c t hstep.2.1 hstep.2.2.1 hs2
      have hw : (fireSaveTimer (scheduleSave s c t) now).2 = [] := by
        rw [fireSaveTimer_after_schedule]
        exact hstep.1
      obtain ⟨ihw, ihs⟩ :=
        ih (fireSaveTimer (scheduleSave s c t) now).1 (now + 1) hstab
      constructor
      · simp [scheduleFireN, hw, ihw]
      · simpa [scheduleFireN] using ihs

/-- Over any number of identical schedule-then-fire cycles from any
starting state, at most one POST is issued in total. -/
theorem scheduleFireN_writes_le_one (n : Nat) (s : SidebarState)
    (c : String) (t : Option String) (now : Nat) :
    (scheduleFireN s c t now n).2.length ≤ 1 := by
  cases n with
  | zero => simp [scheduleFireN]
  | succ n =>
      have hrun := handleContentChange_run
        { s with isContentDirty := true, saveTimer := none } c t now
      have hstab : stableFor (fireSaveTimer (scheduleSave s c t) now).1
          c t := by
        rw [fireSaveTimer_after_schedule]
        exact hrun.2
      have hrest :=
        (scheduleFireN_stable n
          (fireSaveTimer (scheduleSave s c t) now).1 c t (now + 1)
          hstab).1
      have hle : (fireSaveTimer (scheduleSave s c t) now).2.length ≤ 1 := by
        rw [fireSaveTimer_after_schedule]
        exact handleContentChange_writes_le_one _ c t now
      simpa [scheduleFireN, hrest] using hle

/-- C2: with a pending autosave whose content and title are both
unchanged relative to the latest known document snapshot, the timer expiry
issues no persistence write and appends no new version row; moreover, for
any starting state, any number of schedule cycles with one identical final
content and title yields at most one persisted row in total. -/
theorem autosave_unchanged_is_idempotent (s : SidebarState) (c : String)
    (t : Option String) (now : Nat)
    (hp : s.saveTimer = some (c, t))
    (hsame : ∀ d, s.documentsCache.getLast? = some d →
      d.content.getD "" = c ∧
      d.title.getD "" = t.getD s.artifact.title) :
    (fireSaveTimer s now).2 = [] ∧
    (fireSaveTimer s now).1.documentsCache = s.documentsCache ∧
    ∀ (s0 : SidebarState) (m now0 : Nat),
      (scheduleFireN s0 c t now0 m).2.length ≤ 1 := by
  have hstable : stableFor s c t := by
    cases hcd : s.documentsCache.getLast? with
    | none => exact Or.inr (Or.inl hcd)
    | some d =>
        exact Or.inr (Or.inr ⟨d, hcd, (hsame d hcd).1, (hsame d hcd).2⟩)
  have hs2 : stableFor { s with saveTimer := none } c t :=
    stableFor_of_eq s _ c t rfl rfl hstable
  have h1 := handleContentChange_stable
    { s with saveTimer := none } c t now hs2
  refine ⟨?_, ?_, ?_⟩
  · simpa [fireSaveTimer, hp] using h1.1
  · simpa [fireSaveTimer, hp] using h1.2.2.1
  · intro s0 m now0
    exact scheduleFireN_writes_le_one m s0 c t now0

/-- Sidebar state with a pending debounced save that matches the latest
cached row, for the C2 witness. -/
def unchangedPendingState : SidebarState :=
  { artifact := { documentId := "doc-1", kind := "text", title := "T",
                  content := "old", status := ArtifactStatus.idle,
                  isVisible := true },
    documentsCache := [sampleDoc], isContentDirty := true,
    saveTimer := some ("old", none) }

/-- Witness for C2 at the concrete unchanged pending state. -/
theorem autosave_unchanged_is_idempotent_witness :
    unchangedPendingState.saveTimer = some ("old", none) ∧
    (fireSaveTimer unchangedPendingState 4).2 = [] ∧
    (fireSaveTimer unchangedPendingState 4).1.documentsCache =
      unchangedPendingState.documentsCache ∧
    (scheduleFireN unchangedPendingState "old" none 4 3).2.length ≤ 1 := by
  have h := autosave_unchanged_is_idempotent unchangedPendingState
    "old" none 4 rfl (by
      intro d hd
      rw [show unchangedPendingState.documentsCache = [sampleDoc]
            from rfl,
          List.getLast?_singleton] at hd
      cases hd
      exact ⟨rfl, rfl⟩)
  exact ⟨rfl, h.1, h.2.1, h.2.2 unchangedPendingState 3 4⟩

end ChatSDK
